import Mathlib

/-!
Shallow embedding of the multi-agent coordination demo
(models.py, agents.py, multi_agent.py, main.py).

The external language-model backend is modelled as an environment `Env` of
response oracles; the Python coroutines' mutation of the shared
`MultiAgentContext` object is modelled by explicit state passing over
`SysState`.  Pydantic field constraints (`min_items`/`max_items`,
`ge`/`le`) become explicit validators applied at the agent-run boundary,
mirroring how `pydantic_ai` validates each agent's `output_type`.
-/

set_option autoImplicit false

namespace ResearchAgentRepo

/-- One entry of `MultiAgentContext.conversation_history` (models.py,
`add_conversation`): role, content, agent name, timestamp.  Timestamps
(`datetime.now().isoformat()`) are modelled as abstract clock ticks. -/
structure ConversationEntry where
  role : String
  content : String
  agent : String
  timestamp : Nat
deriving Repr, DecidableEq

/-- models.py `ResearchResult` (pydantic): field values as supplied by the
backend; the `min_items=3, max_items=5` constraint on `key_points` lives in
`validateResearchResult`. -/
structure ResearchResult where
  topic : String
  summary : String
  key_points : List String
  confidence_level : String
  sources_needed : List String
deriving Repr, DecidableEq

/-- models.py `CodeAnalysis` (pydantic); the `ge=1, le=10` constraint on
`complexity_score` lives in `validateCodeAnalysis`. -/
structure CodeAnalysis where
  language : String
  complexity_score : Int
  issues_found : List String
  suggestions : List String
  security_concerns : List String
deriving Repr, DecidableEq

/-- models.py `CreativeContent` (pydantic); none of its fields carry a
declared constraint. -/
structure CreativeContent where
  content_type : String
  title : String
  content : String
  target_audience : String
  tone : String
  word_count : Int
deriving Repr, DecidableEq

/-- models.py `TaskSummary` (pydantic): one record of `task_history`. -/
structure TaskSummary where
  task_type : String
  agents_used : List String
  status : String
  result_summary : String
  timestamp : Nat
deriving Repr, DecidableEq

/-- A value stored in `MultiAgentContext.agent_results` (a Python dict of
per-agent last results). -/
inductive AgentResult where
  | research (r : ResearchResult)
  | code (c : CodeAnalysis)
  | creative (c : CreativeContent)
deriving Repr, DecidableEq

/-- models.py `MultiAgentContext`: conversation log, task log,
last-result-per-agent map (dict modelled as an association list with
overwrite-on-insert), and the session identifier fixed at construction. -/
structure MultiAgentContext where
  conversation_history : List ConversationEntry
  task_history : List TaskSummary
  agent_results : List (String × AgentResult)
  session_id : String
deriving Repr, DecidableEq

/-- `MultiAgentContext.__init__`: empty logs; the timestamp-derived session
id is a parameter here. -/
def mkContext (session_id : String) : MultiAgentContext :=
  { conversation_history := [], task_history := [], agent_results := [],
    session_id := session_id }

/-- Python dict assignment `d[k] = v`: overwrite the entry for `k` if
present, otherwise append. -/
def dictInsert (k : String) (v : AgentResult) :
    List (String × AgentResult) → List (String × AgentResult)
  | [] => [(k, v)]
  | (k', v') :: rest =>
    if k' = k then (k, v) :: rest else (k', v') :: dictInsert k v rest

/-- models.py `MultiAgentContext.add_conversation` with the clock value made
explicit. -/
def MultiAgentContext.add_conversation (ctx : MultiAgentContext)
    (role content agent_name : String) (ts : Nat) : MultiAgentContext :=
  { ctx with conversation_history :=
      ctx.conversation_history ++
        [{ role := role, content := content, agent := agent_name, timestamp := ts }] }

/-- models.py `MultiAgentContext.add_task_result`. -/
def MultiAgentContext.add_task_result (ctx : MultiAgentContext)
    (task_summary : TaskSummary) : MultiAgentContext :=
  { ctx with task_history := ctx.task_history ++ [task_summary] }

/-- models.py `MultiAgentContext.store_agent_result`. -/
def MultiAgentContext.store_agent_result (ctx : MultiAgentContext)
    (agent_name : String) (result : AgentResult) : MultiAgentContext :=
  { ctx with agent_results := dictInsert agent_name result ctx.agent_results }

/-- Rendering of one conversation entry inside `get_recent_context`:
`f"[{agent}] {role}: {content}"`. -/
def renderConvEntry (e : ConversationEntry) : String :=
  "[" ++ e.agent ++ "] " ++ e.role ++ ": " ++ e.content

/-- Python slice `l[-limit:]` for a non-negative `limit`: for `limit = 0`
this is `l[0:]`, the whole list; otherwise the last `limit` elements. -/
def pySliceLast {α : Type} (l : List α) (limit : Nat) : List α :=
  if limit = 0 then l else l.drop (l.length - limit)

/-- models.py `MultiAgentContext.get_recent_context`: a pure read, modelled
in state-passing style (returned context is the unchanged receiver). -/
def MultiAgentContext.get_recent_context (ctx : MultiAgentContext)
    (limit : Nat) : String × MultiAgentContext :=
  let recent :=
    if ctx.conversation_history.isEmpty then []
    else pySliceLast ctx.conversation_history limit
  (String.intercalate "\n" (recent.map renderConvEntry), ctx)

/-- Numbered key-point lines of models.py `format_research_result`
(`enumerate(result.key_points, 1)`). -/
def enumPointLines (i : Nat) : List String → String
  | [] => ""
  | p :: ps => "   " ++ toString i ++ ". " ++ p ++ "\n" ++ enumPointLines (i + 1) ps

/-- models.py `format_research_result`. -/
def format_research_result (r : ResearchResult) : String :=
  "📊 Topic: " ++ r.topic ++ "\n" ++
  "📝 Summary: " ++ r.summary ++ "\n" ++
  "🔑 Key Points:\n" ++
  enumPointLines 1 r.key_points ++
  "📈 Confidence: " ++ r.confidence_level ++ "\n" ++
  (if r.sources_needed.isEmpty then ""
   else "📚 Recommended Sources: " ++ String.intercalate ", " r.sources_needed ++ "\n")

/-- models.py `format_creative_result`. -/
def format_creative_result (c : CreativeContent) : String :=
  "✍️  Content Type: " ++ c.content_type ++ "\n" ++
  "📝 Title: " ++ c.title ++ "\n" ++
  "🎯 Audience: " ++ c.target_audience ++ " | Tone: " ++ c.tone ++ "\n" ++
  "📊 Word Count: " ++ toString c.word_count ++ "\n" ++
  "📄 Content:\n" ++ c.content ++ "\n"

/-- Two rendered lines for one task inside agents.py `get_task_history`
(`enumerate(ctx.deps.task_history[-5:], 1)`). -/
def renderTaskLines (i : Nat) : List TaskSummary → String
  | [] => ""
  | t :: ts =>
    toString i ++ ". " ++ t.task_type.toUpper ++ ": " ++ t.result_summary ++ "\n" ++
    "   Agents: " ++ String.intercalate ", " t.agents_used ++
    " | Status: " ++ t.status ++ "\n\n" ++
    renderTaskLines (i + 1) ts

/-- agents.py `get_task_history` (a pure read of the context). -/
def get_task_history (ctx : MultiAgentContext) : String :=
  if ctx.task_history.isEmpty then
    "No tasks completed yet in this session."
  else
    "📊 Session " ++ ctx.session_id ++ " - " ++
    toString ctx.task_history.length ++ " tasks completed:\n\n" ++
    renderTaskLines 1 (ctx.task_history.drop (ctx.task_history.length - 5))

/-- Pydantic validation of `ResearchResult` as declared in models.py:
`key_points: min_items=3, max_items=5`; a violation surfaces as a
validation error instead of a typed value. -/
def validateResearchResult (r : ResearchResult) : Except String ResearchResult :=
  if r.key_points.length < 3 then
    .error ("SchemaViolation: key_points has " ++ toString r.key_points.length ++
            " items, fewer than min_items=3")
  else if 5 < r.key_points.length then
    .error ("SchemaViolation: key_points has " ++ toString r.key_points.length ++
            " items, more than max_items=5")
  else
    .ok r

/-- Pydantic validation of `CodeAnalysis` as declared in models.py:
`complexity_score: ge=1, le=10`. -/
def validateCodeAnalysis (c : CodeAnalysis) : Except String CodeAnalysis :=
  if c.complexity_score < 1 then
    .error "SchemaViolation: complexity_score below ge=1"
  else if 10 < c.complexity_score then
    .error "SchemaViolation: complexity_score above le=10"
  else
    .ok c

/-- Pydantic validation of `CreativeContent`: models.py declares no
constraint on any of its fields (in particular none relating `word_count`
to `content`), so every candidate is accepted. -/
def validateCreativeContent (c : CreativeContent) : Except String CreativeContent :=
  .ok c

/-- Maximal non-whitespace runs in a character list; the flag records
whether the previous character was inside a word. -/
def countWordsAux : List Char → Bool → Nat
  | [], _ => 0
  | c :: rest, inWord =>
    if c.isWhitespace then countWordsAux rest false
    else (if inWord then 0 else 1) + countWordsAux rest true

/-- Modelled from the spec: the "actual token/word count of `body`", i.e.
Python `len(body.split())` — words separated by whitespace runs.  No code
under src/ computes this; it is the spec's reference measure for the
`word_count` invariant. -/
def pyWordCount (s : String) : Nat :=
  countWordsAux s.data false

/-- A tool invocation the coordinator model may choose (the five
`@coordinator_agent.tool` functions of agents.py). -/
inductive ToolCall where
  | research (topic : String)
  | codeAnalysis (code language : String)
  | contentCreation (request content_type audience tone : String)
  | taskHistory
  | complexAnalysis (topic : String)
deriving Repr, DecidableEq

/-- The non-deterministic external language-model capability: raw structured
candidates per specialist prompt (validated afterwards, as `pydantic_ai`
validates each agent's `output_type`), the coordinator's choice of tool
calls for a request, and the coordinator's own final completion — any of
which may fail (backend unavailable). -/
structure Env where
  researchRun : String → Except String ResearchResult
  codeRun : String → Except String CodeAnalysis
  creativeRun : String → Except String CreativeContent
  plan : String → List ToolCall
  finalOutput : String → Except String String

/-- Mutable process state threaded through the coroutines: the shared
context object, an abstract clock for timestamps, and a count of calls made
to the external capability. -/
structure SysState where
  ctx : MultiAgentContext
  time : Nat
  calls : Nat
deriving Repr, DecidableEq

/-- `ctx.deps.add_conversation(...)`, consuming one clock tick. -/
def addConv (role content agent : String) (s : SysState) : SysState :=
  { s with ctx := s.ctx.add_conversation role content agent s.time,
           time := s.time + 1 }

/-- `TaskSummary(...)` construction followed by
`ctx.deps.add_task_result(...)`; the record's default timestamp consumes
one clock tick. -/
def addTask (task_type : String) (agents_used : List String) (status : String)
    (result_summary : String) (s : SysState) : SysState :=
  let task_summary : TaskSummary :=
    { task_type := task_type, agents_used := agents_used, status := status,
      result_summary := result_summary, timestamp := s.time }
  { s with ctx := s.ctx.add_task_result task_summary, time := s.time + 1 }

/-- `ctx.deps.store_agent_result(...)`. -/
def storeResult (agent : String) (r : AgentResult) (s : SysState) : SysState :=
  { s with ctx := s.ctx.store_agent_result agent r }

/-- One external call: bump the call counter. -/
def tickCall (s : SysState) : SysState :=
  { s with calls := s.calls + 1 }

/-- `research_agent.run(prompt)`: backend candidate then schema validation. -/
def runResearchAgent (env : Env) (prompt : String) : Except String ResearchResult :=
  match env.researchRun prompt with
  | .error e => .error e
  | .ok raw => validateResearchResult raw

/-- `code_agent.run(prompt)`: backend candidate then schema validation. -/
def runCodeAgent (env : Env) (prompt : String) : Except String CodeAnalysis :=
  match env.codeRun prompt with
  | .error e => .error e
  | .ok raw => validateCodeAnalysis raw

/-- `creative_agent.run(prompt)`: backend candidate then (vacuous)
schema validation. -/
def runCreativeAgent (env : Env) (prompt : String) : Except String CreativeContent :=
  match env.creativeRun prompt with
  | .error e => .error e
  | .ok raw => validateCreativeContent raw

/-- agents.py `delegate_research`: log the delegation, run the research
agent (an exception propagates with the state reached so far), store the
result and append the task summary. -/
def delegate_research (env : Env) (topic : String) (s : SysState) :
    Except String ResearchResult × SysState :=
  let s1 := addConv "system" ("Delegating research: " ++ topic) "coordinator" s
  let s1 := tickCall s1
  match runResearchAgent env ("Research this topic: " ++ topic) with
  | .error e => (.error e, s1)
  | .ok research_data =>
    let s2 := storeResult "research_agent" (.research research_data) s1
    let s3 := addTask "research" ["research_agent"] "completed"
      ("Researched: " ++ research_data.topic ++
       " (Confidence: " ++ research_data.confidence_level ++ ")") s2
    (.ok research_data, s3)

/-- agents.py `delegate_code_analysis`. -/
def delegate_code_analysis (env : Env) (code language : String) (s : SysState) :
    Except String CodeAnalysis × SysState :=
  let s1 := addConv "system" ("Delegating code analysis for " ++ language) "coordinator" s
  let s1 := tickCall s1
  match runCodeAgent env ("Analyze this " ++ language ++ " code:\n\n```\n" ++ code ++ "\n```") with
  | .error e => (.error e, s1)
  | .ok code_data =>
    let s2 := storeResult "code_agent" (.code code_data) s1
    let s3 := addTask "code_analysis" ["code_agent"] "completed"
      ("Analyzed " ++ code_data.language ++ " code (Complexity: " ++
       toString code_data.complexity_score ++ "/10)") s2
    (.ok code_data, s3)

/-- agents.py `delegate_content_creation`. -/
def delegate_content_creation (env : Env)
    (content_request content_type audience tone : String) (s : SysState) :
    Except String CreativeContent × SysState :=
  let s1 := addConv "system" ("Delegating content creation: " ++ content_type) "coordinator" s
  let s1 := tickCall s1
  let prompt := "Create " ++ content_type ++ " content about: " ++ content_request ++
                ". Target audience: " ++ audience ++ ". Tone: " ++ tone
  match runCreativeAgent env prompt with
  | .error e => (.error e, s1)
  | .ok creative_data =>
    let s2 := storeResult "creative_agent" (.creative creative_data) s1
    let s3 := addTask "content_creation" ["creative_agent"] "completed"
      ("Created " ++ creative_data.content_type ++ ": " ++ creative_data.title ++
       " (" ++ toString creative_data.word_count ++ " words)") s2
    (.ok creative_data, s3)

/-- agents.py `complex_research_analysis`: the fixed two-step pipeline plus
one composite task summary, returning the combined report text. -/
def complex_research_analysis (env : Env) (topic : String) (s : SysState) :
    Except String String × SysState :=
  let s1 := addConv "system" ("Starting complex analysis: " ++ topic) "coordinator" s
  match delegate_research env topic s1 with
  | (.error e, s2) => (.error e, s2)
  | (.ok research_result, s2) =>
    let report_request :=
      "Create a comprehensive report based on this research: " ++
      research_result.summary ++ ". Include the key points: " ++
      String.intercalate ", " research_result.key_points
    match delegate_content_creation env report_request "report" "professional" "analytical" s2 with
    | (.error e, s3) => (.error e, s3)
    | (.ok content_result, s3) =>
      let s4 := addTask "complex_analysis" ["research_agent", "creative_agent"] "completed"
        ("Complex analysis of '" ++ topic ++ "' with research and report generation") s3
      (.ok ("🔍 RESEARCH COMPLETED\n" ++ format_research_result research_result ++
            "\n\n📄 ANALYSIS REPORT\n" ++ format_creative_result content_result), s4)

/-- Execute one tool call chosen by the coordinator, discarding the typed
result (it flows back into the model conversation). -/
def execTool (env : Env) (c : ToolCall) (s : SysState) : Except String Unit × SysState :=
  match c with
  | .research topic =>
    let (r, s') := delegate_research env topic s
    (r.map fun _ => (), s')
  | .codeAnalysis code language =>
    let (r, s') := delegate_code_analysis env code language s
    (r.map fun _ => (), s')
  | .contentCreation request content_type audience tone =>
    let (r, s') := delegate_content_creation env request content_type audience tone s
    (r.map fun _ => (), s')
  | .taskHistory =>
    let _ := get_task_history s.ctx
    (.ok (), s)
  | .complexAnalysis topic =>
    let (r, s') := complex_research_analysis env topic s
    (r.map fun _ => (), s')

/-- Run the coordinator's chosen tool calls sequentially, stopping at the
first exception. -/
def runPlan (env : Env) : List ToolCall → SysState → Except String Unit × SysState
  | [], s => (.ok (), s)
  | c :: cs, s =>
    match execTool env c s with
    | (.error e, s') => (.error e, s')
    | (.ok _, s') => runPlan env cs s'

/-- `coordinator_agent.run(user_input, deps=ctx)`: one external call for the
coordinator model itself, its chosen tool calls, then its final text output
(any stage may fail). -/
def runCoordinator (env : Env) (user_input : String) (s : SysState) :
    Except String String × SysState :=
  let s0 := tickCall s
  match runPlan env (env.plan user_input) s0 with
  | (.error e, s') => (.error e, s')
  | (.ok _, s') =>
    match env.finalOutput user_input with
    | .error e => (.error e, s')
    | .ok out => (.ok out, s')

/-- multi_agent.py `MultiAgentSystem.process_request`: the try/except around
the coordinator run — total by construction, returning the response text. -/
def process_request (env : Env) (user_input : String) (s : SysState) :
    String × SysState :=
  let s1 := addConv "user" user_input "user" s
  match runCoordinator env user_input s1 with
  | (.ok output, s2) =>
    let response := output
    (response, addConv "assistant" response "coordinator" s2)
  | (.error e, s2) =>
    let error_msg := "❌ Error processing request: " ++ e
    (error_msg, addConv "system" error_msg "error" s2)

/-- agents.py / main.py `get_gemini_model`: fails when the credential is
absent or empty (`if not api_key`), else yields the model name. -/
def get_gemini_model (api_key : Option String) : Except String String :=
  match api_key with
  | none => .error "Please set GEMINI_API_KEY in your .env file"
  | some k =>
    if k = "" then .error "Please set GEMINI_API_KEY in your .env file"
    else .ok "gemini-2.0-flash-exp"

/-- Importing agents.py constructs the four module-level agents, each
calling `get_gemini_model()`; an uncaught error here aborts the process
before `main` runs.  No call to the external capability is made (model
construction is local). -/
def importAgents (api_key : Option String) : Except String Unit :=
  match get_gemini_model api_key with
  | .error e => .error e
  | .ok _ =>
    match get_gemini_model api_key with
    | .error e => .error e
    | .ok _ =>
      match get_gemini_model api_key with
      | .error e => .error e
      | .ok _ =>
        match get_gemini_model api_key with
        | .error e => .error e
        | .ok _ => .ok ()

/-- Observable outcome of process startup: the fatal diagnostic if any,
how many external-capability calls were made, and whether the interactive
session loop was entered. -/
structure StartupOutcome where
  diagnostic : Option String
  external_calls : Nat
  session_loop_entered : Bool
deriving Repr, DecidableEq

/-- multi_agent.py startup: module import (which constructs the agents),
then `main`'s credential check, then the system self-test request; only a
successful non-"❌" test response enters the interactive session loop. -/
def mainStartup (env : Env) (api_key : Option String) (session_id : String) :
    StartupOutcome :=
  match importAgents api_key with
  | .error e => { diagnostic := some e, external_calls := 0, session_loop_entered := false }
  | .ok _ =>
    match api_key with
    | none =>
      { diagnostic := some "❌ GEMINI_API_KEY not found!", external_calls := 0,
        session_loop_entered := false }
    | some _ =>
      let s0 : SysState := { ctx := mkContext session_id, time := 0, calls := 0 }
      let (test_response, s1) :=
        process_request env "Hello, can you help me research Python programming?" s0
      if test_response.startsWith "❌" then
        { diagnostic := some "❌ System test failed. Please check your setup.",
          external_calls := s1.calls, session_loop_entered := false }
      else
        { diagnostic := none, external_calls := s1.calls, session_loop_entered := true }

/-- Success test for `Except` results. -/
def isOkE {ε α : Type} : Except ε α → Bool
  | .ok _ => true
  | .error _ => false

@[simp] lemma isOkE_ok {ε α : Type} (a : α) : isOkE (α := α) (ε := ε) (.ok a) = true := rfl

@[simp] lemma isOkE_error {ε α : Type} (e : ε) : isOkE (α := α) (ε := ε) (.error e) = false := rfl

@[simp] lemma addConv_conv (role content agent : String) (s : SysState) :
    (addConv role content agent s).ctx.conversation_history =
      s.ctx.conversation_history ++
        [{ role := role, content := content, agent := agent, timestamp := s.time }] := rfl

@[simp] lemma addConv_tasks (role content agent : String) (s : SysState) :
    (addConv role content agent s).ctx.task_history = s.ctx.task_history := rfl

@[simp] lemma addConv_session (role content agent : String) (s : SysState) :
    (addConv role content agent s).ctx.session_id = s.ctx.session_id := rfl

@[simp] lemma addConv_time (role content agent : String) (s : SysState) :
    (addConv role content agent s).time = s.time + 1 := rfl

@[simp] lemma addTask_conv (k : String) (ag : List String) (st sm : String) (s : SysState) :
    (addTask k ag st sm s).ctx.conversation_history = s.ctx.conversation_history := rfl

@[simp] lemma addTask_tasks (k : String) (ag : List String) (st sm : String) (s : SysState) :
    (addTask k ag st sm s).ctx.task_history =
      s.ctx.task_history ++
        [{ task_type := k, agents_used := ag, status := st,
           result_summary := sm, timestamp := s.time }] := rfl

@[simp] lemma addTask_session (k : String) (ag : List String) (st sm : String) (s : SysState) :
    (addTask k ag st sm s).ctx.session_id = s.ctx.session_id := rfl

@[simp] lemma addTask_time (k : String) (ag : List String) (st sm : String) (s : SysState) :
    (addTask k ag st sm s).time = s.time + 1 := rfl

@[simp] lemma storeResult_conv (a : String) (r : AgentResult) (s : SysState) :
    (storeResult a r s).ctx.conversation_history = s.ctx.conversation_history := rfl

@[simp] lemma storeResult_tasks (a : String) (r : AgentResult) (s : SysState) :
    (storeResult a r s).ctx.task_history = s.ctx.task_history := rfl

@[simp] lemma storeResult_session (a : String) (r : AgentResult) (s : SysState) :
    (storeResult a r s).ctx.session_id = s.ctx.session_id := rfl

@[simp] lemma storeResult_time (a : String) (r : AgentResult) (s : SysState) :
    (storeResult a r s).time = s.time := rfl

@[simp] lemma tickCall_ctx (s : SysState) : (tickCall s).ctx = s.ctx := rfl

@[simp] lemma tickCall_time (s : SysState) : (tickCall s).time = s.time := rfl

/-- Accounting predicate: `s'` was reached from `s` by appending only
system-role conversation entries and exactly `n` task records, leaving the
session id untouched. -/
def StateExt (s s' : SysState) (n : Nat) : Prop :=
  s'.ctx.session_id = s.ctx.session_id ∧
  (∃ ca, s'.ctx.conversation_history = s.ctx.conversation_history ++ ca ∧
         ∀ e ∈ ca, e.role = "system") ∧
  (∃ ta, s'.ctx.task_history = s.ctx.task_history ++ ta ∧ ta.length = n)

lemma stateExt_refl (s : SysState) : StateExt s s 0 :=
  ⟨rfl, ⟨[], by simp, by simp⟩, ⟨[], by simp, rfl⟩⟩

lemma stateExt_trans {s₁ s₂ s₃ : SysState} {m n : Nat}
    (h₁ : StateExt s₁ s₂ m) (h₂ : StateExt s₂ s₃ n) : StateExt s₁ s₃ (m + n) := by
  obtain ⟨hs₁, ⟨ca₁, hca₁, hsys₁⟩, ⟨ta₁, hta₁, hlen₁⟩⟩ := h₁
  obtain ⟨hs₂, ⟨ca₂, hca₂, hsys₂⟩, ⟨ta₂, hta₂, hlen₂⟩⟩ := h₂
  refine ⟨hs₂.trans hs₁, ⟨ca₁ ++ ca₂, ?_, ?_⟩, ⟨ta₁ ++ ta₂, ?_, ?_⟩⟩
  · rw [hca₂, hca₁, List.append_assoc]
  · intro e he
    rcases List.mem_append.mp he with h | h
    · exact hsys₁ e h
    · exact hsys₂ e h
  · rw [hta₂, hta₁, List.append_assoc]
  · simp [hlen₁, hlen₂]

lemma stateExt_addConv_system (c a : String) (s : SysState) :
    StateExt s (addConv "system" c a s) 0 :=
  ⟨by simp, ⟨[{ role := "system", content := c, agent := a, timestamp := s.time }],
    by simp, by simp⟩, ⟨[], by simp, rfl⟩⟩

lemma stateExt_tickCall (s : SysState) : StateExt s (tickCall s) 0 :=
  ⟨by simp, ⟨[], by simp, by simp⟩, ⟨[], by simp, rfl⟩⟩

lemma stateExt_storeResult (a : String) (r : AgentResult) (s : SysState) :
    StateExt s (storeResult a r s) 0 :=
  ⟨by simp, ⟨[], by simp, by simp⟩, ⟨[], by simp, rfl⟩⟩

lemma stateExt_addTask (k : String) (ag : List String) (st sm : String) (s : SysState) :
    StateExt s (addTask k ag st sm s) 1 :=
  ⟨by simp, ⟨[], by simp, by simp⟩,
    ⟨[{ task_type := k, agents_used := ag, status := st,
        result_summary := sm, timestamp := s.time }], by simp, rfl⟩⟩

/-- Task records appended by one tool call when it succeeds: one per
single-specialist delegation, none for the history read, three for the
composite pipeline. -/
def taskCount : ToolCall → Nat
  | .research _ => 1
  | .codeAnalysis _ _ => 1
  | .contentCreation _ _ _ _ => 1
  | .taskHistory => 0
  | .complexAnalysis _ => 3

/-- Specialist agents invoked by one tool call. -/
def specialistCount : ToolCall → Nat
  | .research _ => 1
  | .codeAnalysis _ _ => 1
  | .contentCreation _ _ _ _ => 1
  | .taskHistory => 0
  | .complexAnalysis _ => 2

/-- Composite task summaries appended by one tool call. -/
def compositeCount : ToolCall → Nat
  | .complexAnalysis _ => 1
  | _ => 0

lemma taskCount_eq_specialist_add_composite (c : ToolCall) :
    taskCount c = specialistCount c + compositeCount c := by
  cases c <;> rfl

/-- Success path of `delegate_research`: the exact state reached. -/
lemma delegate_research_ok_eq (env : Env) (topic : String) (s : SysState)
    (r : ResearchResult) (s' : SysState)
    (h : delegate_research env topic s = (.ok r, s')) :
    s' = addTask "research" ["research_agent"] "completed"
          ("Researched: " ++ r.topic ++ " (Confidence: " ++ r.confidence_level ++ ")")
          (storeResult "research_agent" (.research r)
            (tickCall (addConv "system" ("Delegating research: " ++ topic) "coordinator" s))) := by
  cases hrr : runResearchAgent env ("Research this topic: " ++ topic) with
  | error e =>
    simp only [delegate_research, hrr, Prod.mk.injEq] at h
    exact absurd h.1 (fun hh => Except.noConfusion hh)
  | ok d =>
    simp only [delegate_research, hrr, Prod.mk.injEq, Except.ok.injEq] at h
    obtain ⟨rfl, rfl⟩ := h
    rfl

/-- Failure path of `delegate_research`: the exact state reached. -/
lemma delegate_research_err_eq (env : Env) (topic : String) (s : SysState)
    (e : String) (s' : SysState)
    (h : delegate_research env topic s = (.error e, s')) :
    s' = tickCall (addConv "system" ("Delegating research: " ++ topic) "coordinator" s) := by
  cases hrr : runResearchAgent env ("Research this topic: " ++ topic) with
  | error e' =>
    simp only [delegate_research, hrr, Prod.mk.injEq, Except.error.injEq] at h
    exact h.2.symm ▸ rfl
  | ok d =>
    simp only [delegate_research, hrr, Prod.mk.injEq] at h
    exact absurd h.1 (fun hh => Except.noConfusion hh)

/-- Success path of `delegate_code_analysis`: the exact state reached. -/
lemma delegate_code_ok_eq (env : Env) (code language : String) (s : SysState)
    (r : CodeAnalysis) (s' : SysState)
    (h : delegate_code_analysis env code language s = (.ok r, s')) :
    s' = addTask "code_analysis" ["code_agent"] "completed"
          ("Analyzed " ++ r.language ++ " code (Complexity: " ++
           toString r.complexity_score ++ "/10)")
          (storeResult "code_agent" (.code r)
            (tickCall (addConv "system" ("Delegating code analysis for " ++ language)
              "coordinator" s))) := by
  cases hrr : runCodeAgent env
      ("Analyze this " ++ language ++ " code:\n\n```\n" ++ code ++ "\n```") with
  | error e =>
    simp only [delegate_code_analysis, hrr, Prod.mk.injEq] at h
    exact absurd h.1 (fun hh => Except.noConfusion hh)
  | ok d =>
    simp only [delegate_code_analysis, hrr, Prod.mk.injEq, Except.ok.injEq] at h
    obtain ⟨rfl, rfl⟩ := h
    rfl

/-- Failure path of `delegate_code_analysis`. -/
lemma delegate_code_err_eq (env : Env) (code language : String) (s : SysState)
    (e : String) (s' : SysState)
    (h : delegate_code_analysis env code language s = (.error e, s')) :
    s' = tickCall (addConv "system" ("Delegating code analysis for " ++ language)
          "coordinator" s) := by
  cases hrr : runCodeAgent env
      ("Analyze this " ++ language ++ " code:\n\n```\n" ++ code ++ "\n```") with
  | error e' =>
    simp only [delegate_code_analysis, hrr, Prod.mk.injEq, Except.error.injEq] at h
    exact h.2.symm ▸ rfl
  | ok d =>
    simp only [delegate_code_analysis, hrr, Prod.mk.injEq] at h
    exact absurd h.1 (fun hh => Except.noConfusion hh)

/-- Success path of `delegate_content_creation`: the exact state reached. -/
lemma delegate_content_ok_eq (env : Env)
    (content_request content_type audience tone : String) (s : SysState)
    (r : CreativeContent) (s' : SysState)
    (h : delegate_content_creation env content_request content_type audience tone s =
          (.ok r, s')) :
    s' = addTask "content_creation" ["creative_agent"] "completed"
          ("Created " ++ r.content_type ++ ": " ++ r.title ++
           " (" ++ toString r.word_count ++ " words)")
          (storeResult "creative_agent" (.creative r)
            (tickCall (addConv "system" ("Delegating content creation: " ++ content_type)
              "coordinator" s))) := by
  cases hrr : runCreativeAgent env
      ("Create " ++ content_type ++ " content about: " ++ content_request ++
       ". Target audience: " ++ audience ++ ". Tone: " ++ tone) with
  | error e =>
    simp only [delegate_content_creation, hrr, Prod.mk.injEq] at h
    exact absurd h.1 (fun hh => Except.noConfusion hh)
  | ok d =>
    simp only [delegate_content_creation, hrr, Prod.mk.injEq, Except.ok.injEq] at h
    obtain ⟨rfl, rfl⟩ := h
    rfl

/-- Failure path of `delegate_content_creation`. -/
lemma delegate_content_err_eq (env : Env)
    (content_request content_type audience tone : String) (s : SysState)
    (e : String) (s' : SysState)
    (h : delegate_content_creation env content_request content_type audience tone s =
          (.error e, s')) :
    s' = tickCall (addConv "system" ("Delegating content creation: " ++ content_type)
          "coordinator" s) := by
  cases hrr : runCreativeAgent env
      ("Create " ++ content_type ++ " content about: " ++ content_request ++
       ". Target audience: " ++ audience ++ ". Tone: " ++ tone) with
  | error e' =>
    simp only [delegate_content_creation, hrr, Prod.mk.injEq, Except.error.injEq] at h
    exact h.2.symm ▸ rfl
  | ok d =>
    simp only [delegate_content_creation, hrr, Prod.mk.injEq] at h
    exact absurd h.1 (fun hh => Except.noConfusion hh)

/-- Any outcome of `delegate_research` extends the state by system entries
only; exactly one task record iff it succeeded. -/
lemma delegate_research_ext (env : Env) (topic : String) (s : SysState)
    (r : Except String ResearchResult) (s' : SysState)
    (h : delegate_research env topic s = (r, s')) :
    StateExt s s' (if isOkE r then 1 else 0) := by
  cases r with
  | ok d =>
    rw [delegate_research_ok_eq env topic s d s' h]
    simpa using
      stateExt_trans
        (stateExt_trans
          (stateExt_trans (stateExt_addConv_system _ "coordinator" s) (stateExt_tickCall _))
          (stateExt_storeResult _ _ _))
        (stateExt_addTask _ _ _ _ _)
  | error e =>
    rw [delegate_research_err_eq env topic s e s' h]
    simpa using
      stateExt_trans (stateExt_addConv_system _ "coordinator" s) (stateExt_tickCall _)

/-- Any outcome of `delegate_code_analysis` extends the state accordingly. -/
lemma delegate_code_ext (env : Env) (code language : String) (s : SysState)
    (r : Except String CodeAnalysis) (s' : SysState)
    (h : delegate_code_analysis env code language s = (r, s')) :
    StateExt s s' (if isOkE r then 1 else 0) := by
  cases r with
  | ok d =>
    rw [delegate_code_ok_eq env code language s d s' h]
    simpa using
      stateExt_trans
        (stateExt_trans
          (stateExt_trans (stateExt_addConv_system _ "coordinator" s) (stateExt_tickCall _))
          (stateExt_storeResult _ _ _))
        (stateExt_addTask _ _ _ _ _)
  | error e =>
    rw [delegate_code_err_eq env code language s e s' h]
    simpa using
      stateExt_trans (stateExt_addConv_system _ "coordinator" s) (stateExt_tickCall _)

/-- Any outcome of `delegate_content_creation` extends the state accordingly. -/
lemma delegate_content_ext (env : Env)
    (content_request content_type audience tone : String) (s : SysState)
    (r : Except String CreativeContent) (s' : SysState)
    (h : delegate_content_creation env content_request content_type audience tone s = (r, s')) :
    StateExt s s' (if isOkE r then 1 else 0) := by
  cases r with
  | ok d =>
    rw [delegate_content_ok_eq env content_request content_type audience tone s d s' h]
    simpa using
      stateExt_trans
        (stateExt_trans
          (stateExt_trans (stateExt_addConv_system _ "coordinator" s) (stateExt_tickCall _))
          (stateExt_storeResult _ _ _))
        (stateExt_addTask _ _ _ _ _)
  | error e =>
    rw [delegate_content_err_eq env content_request content_type audience tone s e s' h]
    simpa using
      stateExt_trans (stateExt_addConv_system _ "coordinator" s) (stateExt_tickCall _)

/-- Any outcome of `complex_research_analysis` extends the state by system
entries only; exactly three task records on success. -/
lemma complex_ext (env : Env) (topic : String) (s : SysState)
    (r : Except String String) (s' : SysState)
    (h : complex_research_analysis env topic s = (r, s')) :
    ∃ n, StateExt s s' n ∧ (isOkE r = true → n = 3) := by
  simp only [complex_research_analysis] at h
  split at h
  · next e s2 heq =>
    simp only [Prod.mk.injEq] at h
    obtain ⟨rfl, rfl⟩ := h
    have h1 := delegate_research_ext _ _ _ _ _ heq
    simp only [isOkE_error, if_false] at h1
    exact ⟨0, by
      simpa using stateExt_trans (stateExt_addConv_system _ "coordinator" s) h1,
      by simp⟩
  · next r1 s2 heq =>
    split at h
    · next e s3 heq2 =>
      simp only [Prod.mk.injEq] at h
      obtain ⟨rfl, rfl⟩ := h
      have h1 := delegate_research_ext _ _ _ _ _ heq
      have h2 := delegate_content_ext _ _ _ _ _ _ _ _ heq2
      simp only [isOkE_ok, if_true, isOkE_error, if_false] at h1 h2
      refine ⟨1, ?_, by simp⟩
      simpa using
        stateExt_trans (stateExt_trans (stateExt_addConv_system _ "coordinator" s) h1) h2
    · next c1 s3 heq2 =>
      simp only [Prod.mk.injEq] at h
      obtain ⟨rfl, rfl⟩ := h
      have h1 := delegate_research_ext _ _ _ _ _ heq
      have h2 := delegate_content_ext _ _ _ _ _ _ _ _ heq2
      simp only [isOkE_ok, if_true] at h1 h2
      refine ⟨3, ?_, fun _ => rfl⟩
      have := stateExt_trans
        (stateExt_trans (stateExt_trans (stateExt_addConv_system _ "coordinator" s) h1) h2)
        (stateExt_addTask "complex_analysis" ["research_agent", "creative_agent"] "completed"
          ("Complex analysis of '" ++ topic ++ "' with research and report generation") s3)
      simpa using this

/-- Any outcome of one coordinator tool call extends the state by system
entries only; on success the task-record count is `taskCount`. -/
lemma execTool_ext (env : Env) (c : ToolCall) (s : SysState)
    (r : Except String Unit) (s' : SysState)
    (h : execTool env c s = (r, s')) :
    ∃ n, StateExt s s' n ∧ (isOkE r = true → n = taskCount c) := by
  cases c with
  | research topic =>
    rcases hd : delegate_research env topic s with ⟨r1, s1⟩
    simp only [execTool, hd, Prod.mk.injEq] at h
    obtain ⟨rfl, rfl⟩ := h
    refine ⟨if isOkE r1 then 1 else 0, delegate_research_ext env topic s r1 s1 hd, ?_⟩
    cases r1 <;> simp [Except.map, taskCount]
  | codeAnalysis code language =>
    rcases hd : delegate_code_analysis env code language s with ⟨r1, s1⟩
    simp only [execTool, hd, Prod.mk.injEq] at h
    obtain ⟨rfl, rfl⟩ := h
    refine ⟨if isOkE r1 then 1 else 0, delegate_code_ext env code language s r1 s1 hd, ?_⟩
    cases r1 <;> simp [Except.map, taskCount]
  | contentCreation request content_type audience tone =>
    rcases hd : delegate_content_creation env request content_type audience tone s with ⟨r1, s1⟩
    simp only [execTool, hd, Prod.mk.injEq] at h
    obtain ⟨rfl, rfl⟩ := h
    refine ⟨if isOkE r1 then 1 else 0,
      delegate_content_ext env request content_type audience tone s r1 s1 hd, ?_⟩
    cases r1 <;> simp [Except.map, taskCount]
  | taskHistory =>
    simp only [execTool, Prod.mk.injEq] at h
    obtain ⟨rfl, rfl⟩ := h
    exact ⟨0, stateExt_refl s, fun _ => rfl⟩
  | complexAnalysis topic =>
    rcases hd : complex_research_analysis env topic s with ⟨r1, s1⟩
    simp only [execTool, hd, Prod.mk.injEq] at h
    obtain ⟨rfl, rfl⟩ := h
    obtain ⟨n, hext, himp⟩ := complex_ext env topic s r1 s1 hd
    refine ⟨n, hext, ?_⟩
    cases r1 with
    | error e => simp [Except.map]
    | ok out => intro _; exact himp rfl

/-- Any outcome of a tool-call sequence extends the state by system entries
only; on success exactly `Σ taskCount` task records are appended. -/
lemma runPlan_ext (env : Env) (cs : List ToolCall) (s : SysState)
    (r : Except String Unit) (s' : SysState)
    (h : runPlan env cs s = (r, s')) :
    ∃ n, StateExt s s' n ∧ (isOkE r = true → n = (cs.map taskCount).sum) := by
  induction cs generalizing s with
  | nil =>
    simp only [runPlan, Prod.mk.injEq] at h
    obtain ⟨rfl, rfl⟩ := h
    exact ⟨0, stateExt_refl s, fun _ => rfl⟩
  | cons c cs ih =>
    simp only [runPlan] at h
    rcases he : execTool env c s with ⟨r1, s1⟩
    rw [he] at h
    cases r1 with
    | error e =>
      simp only [Prod.mk.injEq] at h
      obtain ⟨rfl, rfl⟩ := h
      obtain ⟨n, hext, _⟩ := execTool_ext env c s _ s1 he
      exact ⟨n, hext, by simp⟩
    | ok u =>
      cases u
      obtain ⟨n1, hext1, himp1⟩ := execTool_ext env c s _ s1 he
      obtain ⟨n2, hext2, himp2⟩ := ih s1 h
      refine ⟨n1 + n2, stateExt_trans hext1 hext2, fun hok => ?_⟩
      simp [himp1 rfl, himp2 hok]

/-- Any outcome of a coordinator run extends the state by system entries
only; on success exactly `Σ taskCount` over the chosen plan. -/
lemma runCoordinator_ext (env : Env) (input : String) (s : SysState)
    (r : Except String String) (s' : SysState)
    (h : runCoordinator env input s = (r, s')) :
    ∃ n, StateExt s s' n ∧
      (isOkE r = true → n = ((env.plan input).map taskCount).sum) := by
  simp only [runCoordinator] at h
  rcases hp : runPlan env (env.plan input) (tickCall s) with ⟨rp, sp⟩
  rw [hp] at h
  cases rp with
  | error e =>
    simp only [Prod.mk.injEq] at h
    obtain ⟨rfl, rfl⟩ := h
    obtain ⟨n, hext, _⟩ := runPlan_ext env _ _ _ _ hp
    exact ⟨n, by simpa using stateExt_trans (stateExt_tickCall s) hext, by simp⟩
  | ok u =>
    cases u
    obtain ⟨n, hext, himp⟩ := runPlan_ext env _ _ _ _ hp
    cases hf : env.finalOutput input with
    | error e =>
      rw [hf] at h
      simp only [Prod.mk.injEq] at h
      obtain ⟨rfl, rfl⟩ := h
      exact ⟨n, by simpa using stateExt_trans (stateExt_tickCall s) hext, by simp⟩
    | ok out =>
      rw [hf] at h
      simp only [Prod.mk.injEq] at h
      obtain ⟨rfl, rfl⟩ := h
      exact ⟨n, by simpa using stateExt_trans (stateExt_tickCall s) hext,
        fun _ => himp rfl⟩

/-- Occurrences of a role in a conversation log. -/
def countRole (role : String) (l : List ConversationEntry) : Nat :=
  (l.filter (fun e => e.role = role)).length

lemma countRole_append (role : String) (l₁ l₂ : List ConversationEntry) :
    countRole role (l₁ ++ l₂) = countRole role l₁ + countRole role l₂ := by
  simp [countRole, List.filter_append]

lemma countRole_all_system (role : String) (l : List ConversationEntry)
    (h : ∀ e ∈ l, e.role = "system") (hne : role ≠ "system") :
    countRole role l = 0 := by
  induction l with
  | nil => rfl
  | cons e t ih =>
    have he : e.role = "system" := h e (by simp)
    have hfalse : ¬(e.role = role) := fun hh => hne (he.symm.trans hh).symm
    have ht := ih (fun x hx => h x (by simp [hx]))
    simp [countRole, List.filter_cons, hfalse] at ht ⊢
    exact ht

/-- The claim's reading of "the last min(n, length) entries" of a log. -/
def specLastMin (n : Nat) (l : List ConversationEntry) : List ConversationEntry :=
  l.drop (l.length - min n l.length)

lemma pySliceLast_eq_specLastMin (l : List ConversationEntry) (limit : Nat)
    (h : 1 ≤ limit) :
    (if l.isEmpty then [] else pySliceLast l limit) = specLastMin limit l := by
  cases l with
  | nil => simp [specLastMin]
  | cons e t =>
    have h0 : limit ≠ 0 := by omega
    simp only [List.isEmpty_cons, Bool.false_eq_true, if_false, pySliceLast, if_neg h0,
      specLastMin]
    congr 1
    omega

/-- A schema-valid fixture for the research agent. -/
def sampleResearch : ResearchResult :=
  { topic := "quantum computing trends", summary := "overview of the field",
    key_points := ["k1", "k2", "k3"], confidence_level := "High",
    sources_needed := [] }

/-- A schema-valid fixture for the code agent. -/
def sampleCode : CodeAnalysis :=
  { language := "Python", complexity_score := 3, issues_found := [],
    suggestions := [], security_concerns := [] }

/-- A fixture for the creative agent; note its `word_count` does not match
its two-word `content`, which no declared constraint forbids. -/
def sampleCreative : CreativeContent :=
  { content_type := "report", title := "Report", content := "hello world",
    target_audience := "professional", tone := "analytical", word_count := 5 }

/-- A research fixture with only two key points (schema-invalid). -/
def badResearch : ResearchResult :=
  { topic := "t", summary := "s", key_points := ["a", "b"],
    confidence_level := "Low", sources_needed := [] }

/-- A research fixture with six key points (schema-invalid). -/
def badResearch6 : ResearchResult :=
  { topic := "t", summary := "s", key_points := ["a", "b", "c", "d", "e", "f"],
    confidence_level := "Low", sources_needed := [] }

/-- An environment in which every backend call succeeds and the coordinator
routes to the composite pipeline. -/
def env0 : Env :=
  { researchRun := fun _ => .ok sampleResearch,
    codeRun := fun _ => .ok sampleCode,
    creativeRun := fun _ => .ok sampleCreative,
    plan := fun _ => [ToolCall.complexAnalysis "AI impact on healthcare"],
    finalOutput := fun _ => .ok "done" }

/-- An environment whose research backend is unreachable while the
coordinator routes to a research delegation. -/
def envFail : Env :=
  { researchRun := fun _ => .error "backend unavailable",
    codeRun := fun _ => .error "backend unavailable",
    creativeRun := fun _ => .error "backend unavailable",
    plan := fun _ => [ToolCall.research "quantum computing trends"],
    finalOutput := fun _ => .ok "done" }

/-- Initial process state of one session. -/
def st0 : SysState :=
  { ctx := mkContext "20250101_000000", time := 0, calls := 0 }

/-- A context holding a single conversation entry. -/
def ctxOneEntry : MultiAgentContext :=
  { conversation_history :=
      [{ role := "user", content := "hi", agent := "user", timestamp := 0 }],
    task_history := [], agent_results := [], session_id := "s" }

/-- A numbered task-record fixture. -/
def taskRec (i : Nat) : TaskSummary :=
  { task_type := "research", agents_used := ["research_agent"],
    status := "completed", result_summary := "r" ++ toString i, timestamp := i }

/-- A context holding seven task records. -/
def ctx7 : MultiAgentContext :=
  { conversation_history := [],
    task_history := [taskRec 1, taskRec 2, taskRec 3, taskRec 4, taskRec 5,
                     taskRec 6, taskRec 7],
    agent_results := [], session_id := "sess" }

/-- C6: the task-history reporter returns the fixed "no tasks" message on an
empty task sequence; on a context with 7 records it renders exactly the
last 5 (`drop 2`), in their original relative order. -/
theorem c6_task_history_reporter :
    (∀ ctx : MultiAgentContext, ctx.task_history = [] →
        get_task_history ctx = "No tasks completed yet in this session.") ∧
    (∀ ctx : MultiAgentContext, ctx.task_history.length = 7 →
        get_task_history ctx =
          "📊 Session " ++ ctx.session_id ++ " - " ++
          toString ctx.task_history.length ++ " tasks completed:\n\n" ++
          renderTaskLines 1 (ctx.task_history.drop 2) ∧
        toString ctx.task_history.length = "7" ∧
        (ctx.task_history.drop 2).length = 5 ∧
        ctx.task_history = ctx.task_history.take 2 ++ ctx.task_history.drop 2) := by
  constructor
  · intro ctx h
    simp [get_task_history, h]
  · intro ctx h
    have hni : ctx.task_history.isEmpty = false := by
      cases hl : ctx.task_history with
      | nil => rw [hl] at h; simp at h
      | cons a t => rfl
    refine ⟨?_, ?_, ?_, ?_⟩
    · simp only [get_task_history, hni, Bool.false_eq_true, if_false, h]
    · rw [h]; decide
    · rw [List.length_drop, h]
    · exact (List.take_append_drop 2 ctx.task_history).symm

/-- C6 witness: the reporter evaluated on an empty context and on the
concrete seven-record context. -/
theorem c6_task_history_reporter_witness :
    ((mkContext "e").task_history = [] ∧
      get_task_history (mkContext "e") = "No tasks completed yet in this session.") ∧
    (ctx7.task_history.length = 7 ∧
      (get_task_history ctx7 =
        "📊 Session " ++ ctx7.session_id ++ " - " ++
        toString ctx7.task_history.length ++ " tasks completed:\n\n" ++
        renderTaskLines 1 (ctx7.task_history.drop 2) ∧
      toString ctx7.task_history.length = "7" ∧
      (ctx7.task_history.drop 2).length = 5 ∧
      ctx7.task_history = ctx7.task_history.take 2 ++ ctx7.task_history.drop 2)) :=
  ⟨⟨rfl, c6_task_history_reporter.1 (mkContext "e") rfl⟩,
   ⟨rfl, c6_task_history_reporter.2 ctx7 rfl⟩⟩

/-- C7: every research result accepted at the agent-run boundary has between
3 and 5 key points; a candidate with 2 or 6 key points is rejected with a
SchemaViolation error instead of being returned as a typed result. -/
theorem c7_key_points_bounds :
    (∀ (env : Env) (p : String) (r : ResearchResult),
        runResearchAgent env p = .ok r →
        3 ≤ r.key_points.length ∧ r.key_points.length ≤ 5) ∧
    (∀ r : ResearchResult,
        r.key_points.length = 2 ∨ r.key_points.length = 6 →
        ∃ e, validateResearchResult r = .error e ∧
          ∃ rest, e = "SchemaViolation" ++ rest) := by
  constructor
  · intro env p r h
    cases henv : env.researchRun p with
    | error e =>
      simp only [runResearchAgent, henv] at h
      exact absurd h (fun hh => Except.noConfusion hh)
    | ok raw =>
      simp only [runResearchAgent, henv] at h
      unfold validateResearchResult at h
      split_ifs at h with h1 h2
      obtain rfl : raw = r := by injection h
      omega
  · intro r hr
    rcases hr with h2 | h6
    · refine ⟨"SchemaViolation: key_points has 2 items, fewer than min_items=3", ?_, ?_⟩
      · simp only [validateResearchResult, h2]
        rw [if_pos (by norm_num : (2 : Nat) < 3)]
        exact congrArg Except.error (by decide)
      · exact ⟨": key_points has 2 items, fewer than min_items=3", by decide⟩
    · refine ⟨"SchemaViolation: key_points has 6 items, more than max_items=5", ?_, ?_⟩
      · simp only [validateResearchResult, h6]
        rw [if_neg (by norm_num : ¬((6 : Nat) < 3)), if_pos (by norm_num : (5 : Nat) < 6)]
        exact congrArg Except.error (by decide)
      · exact ⟨": key_points has 6 items, more than max_items=5", by decide⟩

/-- C7 witness: the bounds hold for a concrete accepted result, and concrete
2-point and 6-point candidates are rejected. -/
theorem c7_key_points_bounds_witness :
    (3 ≤ sampleResearch.key_points.length ∧ sampleResearch.key_points.length ≤ 5) ∧
    (∃ e, validateResearchResult badResearch = .error e ∧
      ∃ rest, e = "SchemaViolation" ++ rest) ∧
    (∃ e, validateResearchResult badResearch6 = .error e ∧
      ∃ rest, e = "SchemaViolation" ++ rest) :=
  ⟨c7_key_points_bounds.1 env0 "Research this topic: quantum computing trends"
      sampleResearch rfl,
   c7_key_points_bounds.2 badResearch (Or.inl rfl),
   c7_key_points_bounds.2 badResearch6 (Or.inr rfl)⟩

/-- C8 counterexample to the claim as stated: a creative-content candidate
whose `word_count` (5) differs from the actual word count of its `content`
("hello world", 2 words) is accepted unchanged by validation. -/
theorem c8_word_count_counterexample :
    validateCreativeContent sampleCreative = .ok sampleCreative ∧
    pyWordCount sampleCreative.content = 2 ∧
    sampleCreative.word_count ≠ (pyWordCount sampleCreative.content : Int) := by
  refine ⟨rfl, by decide, by decide⟩

/-- C8 (amended): models.py declares no constraint on `CreativeContent`, so
validation accepts every candidate unchanged — in particular an accepted
result's `word_count` is exactly whatever integer the backend supplied, with
no relation to the content enforced. -/
theorem c8_word_count_amended :
    (∀ c : CreativeContent, validateCreativeContent c = .ok c) ∧
    (∀ (env : Env) (p : String) (c : CreativeContent),
        runCreativeAgent env p = .ok c → env.creativeRun p = .ok c) := by
  constructor
  · intro c; rfl
  · intro env p c h
    cases henv : env.creativeRun p with
    | error e =>
      simp only [runCreativeAgent, henv] at h
      exact absurd h (fun hh => Except.noConfusion hh)
    | ok raw =>
      simp only [runCreativeAgent, henv, validateCreativeContent] at h
      obtain rfl : raw = c := by injection h
      rfl

/-- C8 witness: the amended statement evaluated at a concrete candidate and
a concrete environment. -/
theorem c8_word_count_amended_witness :
    validateCreativeContent sampleCreative = .ok sampleCreative ∧
    env0.creativeRun "p" = .ok sampleCreative :=
  ⟨c8_word_count_amended.1 sampleCreative,
   c8_word_count_amended.2 env0 "p" sampleCreative rfl⟩

/-- C9: with the credential absent (or empty), startup aborts with the
configuration diagnostic raised while constructing the agents, makes zero
calls to the external capability, and never enters the session loop. -/
theorem c9_missing_credential (env : Env) (sid : String) :
    mainStartup env none sid =
      { diagnostic := some "Please set GEMINI_API_KEY in your .env file",
        external_calls := 0, session_loop_entered := false } ∧
    mainStartup env (some "") sid =
      { diagnostic := some "Please set GEMINI_API_KEY in your .env file",
        external_calls := 0, session_loop_entered := false } :=
  ⟨rfl, rfl⟩

/-- C10 counterexample to the claim as stated: at `limit = 0` on a one-entry
context the operation renders the whole log (Python `[-0:]` is the full
slice), not the last `min(0, 1) = 0` entries. -/
theorem c10_get_recent_context_counterexample :
    (ctxOneEntry.get_recent_context 0).1 ≠
      String.intercalate "\n"
        ((specLastMin 0 ctxOneEntry.conversation_history).map renderConvEntry) ∧
    (ctxOneEntry.get_recent_context 0).1 = "[user] user: hi" ∧
    specLastMin 0 ctxOneEntry.conversation_history = [] := by
  refine ⟨by decide, rfl, rfl⟩

/-- C10 (amended): `get_recent_context` never mutates the context, and for
every `limit ≥ 1` it renders exactly the last `min(limit, length)`
conversation entries in their original insertion order. -/
theorem c10_get_recent_context_amended :
    (∀ (ctx : MultiAgentContext) (limit : Nat),
        (ctx.get_recent_context limit).2 = ctx) ∧
    (∀ (ctx : MultiAgentContext) (limit : Nat), 1 ≤ limit →
        (ctx.get_recent_context limit).1 =
          String.intercalate "\n"
            ((specLastMin limit ctx.conversation_history).map renderConvEntry) ∧
        (specLastMin limit ctx.conversation_history).length =
          min limit ctx.conversation_history.length ∧
        ctx.conversation_history =
          ctx.conversation_history.take
            (ctx.conversation_history.length -
              min limit ctx.conversation_history.length) ++
          specLastMin limit ctx.conversation_history) := by
  constructor
  · intro ctx limit; rfl
  · intro ctx limit hl
    refine ⟨?_, ?_, ?_⟩
    · simp only [MultiAgentContext.get_recent_context]
      rw [pySliceLast_eq_specLastMin ctx.conversation_history limit hl]
    · simp only [specLastMin, List.length_drop]
      omega
    · exact (List.take_append_drop _ ctx.conversation_history).symm

/-- C10 witness: the amended statement evaluated at the one-entry context
with `limit = 3`. -/
theorem c10_get_recent_context_witness :
    (ctxOneEntry.get_recent_context 3).2 = ctxOneEntry ∧
    ((ctxOneEntry.get_recent_context 3).1 =
      String.intercalate "\n"
        ((specLastMin 3 ctxOneEntry.conversation_history).map renderConvEntry) ∧
     (specLastMin 3 ctxOneEntry.conversation_history).length =
       min 3 ctxOneEntry.conversation_history.length ∧
     ctxOneEntry.conversation_history =
       ctxOneEntry.conversation_history.take
         (ctxOneEntry.conversation_history.length -
           min 3 ctxOneEntry.conversation_history.length) ++
       specLastMin 3 ctxOneEntry.conversation_history) :=
  ⟨c10_get_recent_context_amended.1 ctxOneEntry 3,
   c10_get_recent_context_amended.2 ctxOneEntry 3 (by decide)⟩

lemma countRole_nil (role : String) : countRole role [] = 0 := rfl

lemma countRole_cons (role : String) (e : ConversationEntry)
    (l : List ConversationEntry) :
    countRole role (e :: l) =
      (if e.role = role then 1 else 0) + countRole role l := by
  by_cases hc : e.role = role
  · simp [countRole, List.filter_cons, hc, Nat.add_comm]
  · simp [countRole, List.filter_cons, hc]

lemma sum_taskCount_eq (cs : List ToolCall) :
    (cs.map taskCount).sum =
      (cs.map (fun c => specialistCount c + compositeCount c)).sum := by
  induction cs with
  | nil => rfl
  | cons c cs ih => simp [taskCount_eq_specialist_add_composite, ih]

/-- C1: a composite ("complex analysis") request that succeeds appends
exactly three task records, in the order research, content_creation,
composite; the composite record invokes both specialists, research agent
first. -/
theorem c1_composite_three_records (env : Env) (topic : String) (s : SysState)
    (h : isOkE (complex_research_analysis env topic s).1 = true) :
    ∃ sum1 t1 sum2 t2 sum3 t3,
      (complex_research_analysis env topic s).2.ctx.task_history =
        s.ctx.task_history ++
          [{ task_type := "research", agents_used := ["research_agent"],
             status := "completed", result_summary := sum1, timestamp := t1 },
           { task_type := "content_creation", agents_used := ["creative_agent"],
             status := "completed", result_summary := sum2, timestamp := t2 },
           { task_type := "complex_analysis",
             agents_used := ["research_agent", "creative_agent"],
             status := "completed", result_summary := sum3, timestamp := t3 }] := by
  rcases hca : complex_research_analysis env topic s with ⟨res, sf⟩
  rw [hca] at h
  cases res with
  | error e => simp at h
  | ok out =>
    simp only [complex_research_analysis] at hca
    split at hca
    · next e s2 heq =>
      simp only [Prod.mk.injEq] at hca
      exact absurd hca.1 (fun hh => Except.noConfusion hh)
    · next r1 s2 heq =>
      split at hca
      · next e s3 heq2 =>
        simp only [Prod.mk.injEq] at hca
        exact absurd hca.1 (fun hh => Except.noConfusion hh)
      · next c1 s3 heq2 =>
        simp only [Prod.mk.injEq] at hca
        obtain ⟨-, rfl⟩ := hca
        have e2 := delegate_content_ok_eq _ _ _ _ _ _ _ _ heq2
        subst e2
        have e1 := delegate_research_ok_eq _ _ _ _ _ heq
        subst e1
        refine ⟨"Researched: " ++ r1.topic ++ " (Confidence: " ++
                  r1.confidence_level ++ ")", s.time + 1 + 1,
                "Created " ++ c1.content_type ++ ": " ++ c1.title ++ " (" ++
                  toString c1.word_count ++ " words)", s.time + 1 + 1 + 1 + 1,
                "Complex analysis of '" ++ topic ++
                  "' with research and report generation",
                s.time + 1 + 1 + 1 + 1 + 1, ?_⟩
        simp [List.append_assoc]

/-- C1 witness: the composite pipeline evaluated in a fully successful
concrete environment. -/
theorem c1_composite_three_records_witness :
    ∃ sum1 t1 sum2 t2 sum3 t3,
      (complex_research_analysis env0 "AI impact on healthcare" st0).2.ctx.task_history =
        st0.ctx.task_history ++
          [{ task_type := "research", agents_used := ["research_agent"],
             status := "completed", result_summary := sum1, timestamp := t1 },
           { task_type := "content_creation", agents_used := ["creative_agent"],
             status := "completed", result_summary := sum2, timestamp := t2 },
           { task_type := "complex_analysis",
             agents_used := ["research_agent", "creative_agent"],
             status := "completed", result_summary := sum3, timestamp := t3 }] :=
  c1_composite_three_records env0 "AI impact on healthcare" st0 (by decide)

/-- C5: each successful single-specialization delegation appends exactly one
task record, with a singleton `agents_used` naming the specialist, the
matching `task_type`, and status `completed`. -/
theorem c5_single_delegation_records :
    (∀ (env : Env) (topic : String) (s : SysState) (r : ResearchResult) (s' : SysState),
        delegate_research env topic s = (.ok r, s') →
        s'.ctx.task_history = s.ctx.task_history ++
          [{ task_type := "research", agents_used := ["research_agent"],
             status := "completed",
             result_summary := "Researched: " ++ r.topic ++ " (Confidence: " ++
               r.confidence_level ++ ")",
             timestamp := s.time + 1 }]) ∧
    (∀ (env : Env) (code language : String) (s : SysState) (r : CodeAnalysis) (s' : SysState),
        delegate_code_analysis env code language s = (.ok r, s') →
        s'.ctx.task_history = s.ctx.task_history ++
          [{ task_type := "code_analysis", agents_used := ["code_agent"],
             status := "completed",
             result_summary := "Analyzed " ++ r.language ++ " code (Complexity: " ++
               toString r.complexity_score ++ "/10)",
             timestamp := s.time + 1 }]) ∧
    (∀ (env : Env) (request content_type audience tone : String) (s : SysState)
        (r : CreativeContent) (s' : SysState),
        delegate_content_creation env request content_type audience tone s = (.ok r, s') →
        s'.ctx.task_history = s.ctx.task_history ++
          [{ task_type := "content_creation", agents_used := ["creative_agent"],
             status := "completed",
             result_summary := "Created " ++ r.content_type ++ ": " ++ r.title ++
               " (" ++ toString r.word_count ++ " words)",
             timestamp := s.time + 1 }]) := by
  refine ⟨?_, ?_, ?_⟩
  · intro env topic s r s' h
    rw [delegate_research_ok_eq _ _ _ _ _ h]
    simp
  · intro env code language s r s' h
    rw [delegate_code_ok_eq _ _ _ _ _ _ h]
    simp
  · intro env request content_type audience tone s r s' h
    rw [delegate_content_ok_eq _ _ _ _ _ _ _ _ h]
    simp

/-- C5 witness: the three delegations evaluated in a concrete successful
environment. -/
theorem c5_single_delegation_records_witness :
    (delegate_research env0 "q" st0).2.ctx.task_history =
      st0.ctx.task_history ++
        [{ task_type := "research", agents_used := ["research_agent"],
           status := "completed",
           result_summary := "Researched: " ++ sampleResearch.topic ++
             " (Confidence: " ++ sampleResearch.confidence_level ++ ")",
           timestamp := st0.time + 1 }] ∧
    (delegate_code_analysis env0 "print(1)" "Python" st0).2.ctx.task_history =
      st0.ctx.task_history ++
        [{ task_type := "code_analysis", agents_used := ["code_agent"],
           status := "completed",
           result_summary := "Analyzed " ++ sampleCode.language ++
             " code (Complexity: " ++ toString sampleCode.complexity_score ++ "/10)",
           timestamp := st0.time + 1 }] ∧
    (delegate_content_creation env0 "req" "article" "general" "professional"
        st0).2.ctx.task_history =
      st0.ctx.task_history ++
        [{ task_type := "content_creation", agents_used := ["creative_agent"],
           status := "completed",
           result_summary := "Created " ++ sampleCreative.content_type ++ ": " ++
             sampleCreative.title ++ " (" ++ toString sampleCreative.word_count ++
             " words)",
           timestamp := st0.time + 1 }] :=
  ⟨c5_single_delegation_records.1 env0 "q" st0 sampleResearch
      ((delegate_research env0 "q" st0).2) rfl,
   c5_single_delegation_records.2.1 env0 "print(1)" "Python" st0 sampleCode
      ((delegate_code_analysis env0 "print(1)" "Python" st0).2) rfl,
   c5_single_delegation_records.2.2 env0 "req" "article" "general" "professional" st0
      sampleCreative
      ((delegate_content_creation env0 "req" "article" "general" "professional" st0).2) rfl⟩

/-- C2: `process_request` is total (no exception escapes — its result type
is the response string); when the coordinator run raises, the response is
the distinctly prefixed error message and a system-role conversation entry
recording it is appended. -/
theorem c2_error_conversion (env : Env) (input : String) (s : SysState) (e : String)
    (h : (runCoordinator env input (addConv "user" input "user" s)).1 = .error e) :
    (process_request env input s).1 = "❌ Error processing request: " ++ e ∧
    (process_request env input s).2.ctx.conversation_history =
      (runCoordinator env input (addConv "user" input "user" s)).2.ctx.conversation_history ++
        [{ role := "system", content := "❌ Error processing request: " ++ e,
           agent := "error",
           timestamp := (runCoordinator env input (addConv "user" input "user" s)).2.time }] := by
  rcases hrc : runCoordinator env input (addConv "user" input "user" s) with ⟨r, s2⟩
  rw [hrc] at h
  have h' : r = .error e := h
  subst h'
  simp only [process_request, hrc]
  exact ⟨trivial, by simp⟩

/-- C2 witness: a concrete unreachable-backend environment. -/
theorem c2_error_conversion_witness :
    (process_request envFail "Research quantum computing trends" st0).1 =
      "❌ Error processing request: " ++ "backend unavailable" ∧
    (process_request envFail "Research quantum computing trends" st0).2.ctx.conversation_history =
      (runCoordinator envFail "Research quantum computing trends"
        (addConv "user" "Research quantum computing trends" "user" st0)).2.ctx.conversation_history ++
        [{ role := "system",
           content := "❌ Error processing request: " ++ "backend unavailable",
           agent := "error",
           timestamp := (runCoordinator envFail "Research quantum computing trends"
             (addConv "user" "Research quantum computing trends" "user" st0)).2.time }] :=
  c2_error_conversion envFail "Research quantum computing trends" st0
    "backend unavailable" rfl

/-- C4: when a delegated call fails partway through a request, every
conversation entry and task record appended before the failure persists in
the final context (no rollback), and the error is the response text. -/
theorem c4_no_rollback (env : Env) (input : String) (s : SysState) (e : String)
    (h : (runCoordinator env input (addConv "user" input "user" s)).1 = .error e) :
    (process_request env input s).1 = "❌ Error processing request: " ++ e ∧
    (process_request env input s).2.ctx.task_history =
      (runCoordinator env input (addConv "user" input "user" s)).2.ctx.task_history ∧
    (∃ ta, (runCoordinator env input (addConv "user" input "user" s)).2.ctx.task_history =
      s.ctx.task_history ++ ta) ∧
    (∃ ca, (runCoordinator env input (addConv "user" input "user" s)).2.ctx.conversation_history =
      s.ctx.conversation_history ++
        ({ role := "user", content := input, agent := "user", timestamp := s.time } :: ca)) ∧
    (process_request env input s).2.ctx.conversation_history =
      (runCoordinator env input (addConv "user" input "user" s)).2.ctx.conversation_history ++
        [{ role := "system", content := "❌ Error processing request: " ++ e,
           agent := "error",
           timestamp := (runCoordinator env input (addConv "user" input "user" s)).2.time }] := by
  rcases hrc : runCoordinator env input (addConv "user" input "user" s) with ⟨r, s2⟩
  rw [hrc] at h
  have h' : r = .error e := h
  subst h'
  obtain ⟨n, hext, -⟩ := runCoordinator_ext env input _ _ _ hrc
  obtain ⟨hsid, ⟨ca, hca, hsys⟩, ⟨ta, hta, hlen⟩⟩ := hext
  simp only [process_request, hrc]
  refine ⟨trivial, by simp, ⟨ta, ?_⟩, ⟨ca, ?_⟩, by simp⟩
  · simpa using hta
  · rw [hca]
    simp

/-- C4 witness: the persistence facts evaluated in the concrete
unreachable-backend environment. -/
theorem c4_no_rollback_witness :
    (process_request envFail "Research quantum computing trends" st0).1 =
      "❌ Error processing request: " ++ "backend unavailable" ∧
    (process_request envFail "Research quantum computing trends" st0).2.ctx.task_history =
      (runCoordinator envFail "Research quantum computing trends"
        (addConv "user" "Research quantum computing trends" "user" st0)).2.ctx.task_history ∧
    (∃ ta, (runCoordinator envFail "Research quantum computing trends"
        (addConv "user" "Research quantum computing trends" "user" st0)).2.ctx.task_history =
      st0.ctx.task_history ++ ta) ∧
    (∃ ca, (runCoordinator envFail "Research quantum computing trends"
        (addConv "user" "Research quantum computing trends" "user" st0)).2.ctx.conversation_history =
      st0.ctx.conversation_history ++
        ({ role := "user", content := "Research quantum computing trends",
           agent := "user", timestamp := st0.time } :: ca)) ∧
    (process_request envFail "Research quantum computing trends" st0).2.ctx.conversation_history =
      (runCoordinator envFail "Research quantum computing trends"
        (addConv "user" "Research quantum computing trends" "user" st0)).2.ctx.conversation_history ++
        [{ role := "system",
           content := "❌ Error processing request: " ++ "backend unavailable",
           agent := "error",
           timestamp := (runCoordinator envFail "Research quantum computing trends"
             (addConv "user" "Research quantum computing trends" "user" st0)).2.time }] :=
  c4_no_rollback envFail "Research quantum computing trends" st0
    "backend unavailable" rfl

/-- C3 counterexample to the claim as stated: on a failed run no assistant
entry is appended at all (a system entry replaces it), and a successful
composite run appends three task records for its two specialist
invocations. -/
theorem c3_bracketing_counterexample :
    countRole "assistant"
      (process_request envFail "Research quantum computing trends"
        st0).2.ctx.conversation_history = 0 ∧
    (0 : Nat) ≠ 1 ∧
    (process_request env0 "Do a complex analysis on AI impact on healthcare"
        st0).2.ctx.task_history.length = 3 ∧
    ([ToolCall.complexAnalysis "AI impact on healthcare"].map specialistCount).sum = 2 ∧
    (3 : Nat) ≠ 2 :=
  ⟨by decide, by decide, by decide, by decide, by decide⟩

/-- C3 (amended): on every run in which the external capability returns
successfully, exactly one user entry is appended at the start and exactly
one assistant entry at the end (all entries between them are system
entries), and exactly one task record is appended per specialist invoked
plus one composite record per composite delegation. -/
theorem c3_request_bracketing_amended (env : Env) (input : String) (s : SysState)
    (h : isOkE (runCoordinator env input (addConv "user" input "user" s)).1 = true) :
    ∃ mid t_a ta,
      (process_request env input s).2.ctx.conversation_history =
        s.ctx.conversation_history ++
          ({ role := "user", content := input, agent := "user", timestamp := s.time } ::
            (mid ++ [{ role := "assistant", content := (process_request env input s).1,
                       agent := "coordinator", timestamp := t_a }])) ∧
      (∀ x ∈ mid, x.role = "system") ∧
      countRole "user" (process_request env input s).2.ctx.conversation_history =
        countRole "user" s.ctx.conversation_history + 1 ∧
      countRole "assistant" (process_request env input s).2.ctx.conversation_history =
        countRole "assistant" s.ctx.conversation_history + 1 ∧
      (process_request env input s).2.ctx.task_history = s.ctx.task_history ++ ta ∧
      ta.length =
        ((env.plan input).map (fun c => specialistCount c + compositeCount c)).sum := by
  rcases hrc : runCoordinator env input (addConv "user" input "user" s) with ⟨r, s2⟩
  rw [hrc] at h
  have h' : isOkE r = true := h
  cases r with
  | error e => simp at h'
  | ok out =>
    obtain ⟨n, hext, himp⟩ := runCoordinator_ext env input _ _ _ hrc
    have hn : n = ((env.plan input).map taskCount).sum := himp rfl
    obtain ⟨hsid, ⟨ca, hca, hsys⟩, ⟨ta, hta, hlen⟩⟩ := hext
    have hpr : process_request env input s =
        (out, addConv "assistant" out "coordinator" s2) := by
      simp only [process_request, hrc]
    rw [hpr]
    have hconv : (addConv "assistant" out "coordinator" s2).ctx.conversation_history =
        s.ctx.conversation_history ++
          ({ role := "user", content := input, agent := "user", timestamp := s.time } ::
            (ca ++ [{ role := "assistant", content := out, agent := "coordinator",
                      timestamp := s2.time }])) := by
      rw [addConv_conv, hca]
      simp
    have hcu := countRole_all_system "user" ca hsys (by decide)
    have hcaa := countRole_all_system "assistant" ca hsys (by decide)
    refine ⟨ca, s2.time, ta, hconv, hsys, ?_, ?_, ?_, ?_⟩
    · show countRole "user"
        ((addConv "assistant" out "coordinator" s2).ctx.conversation_history) = _
      rw [hconv, countRole_append, countRole_cons, countRole_append, countRole_cons,
        countRole_nil]
      simp [hcu]
    · show countRole "assistant"
        ((addConv "assistant" out "coordinator" s2).ctx.conversation_history) = _
      rw [hconv, countRole_append, countRole_cons, countRole_append, countRole_cons,
        countRole_nil]
      simp [hcaa]
    · show (addConv "assistant" out "coordinator" s2).ctx.task_history = _
      rw [addConv_tasks, hta, addConv_tasks]
    · rw [hlen, hn, sum_taskCount_eq]

/-- C3 witness: the amended bracketing evaluated on the concrete successful
composite environment. -/
theorem c3_request_bracketing_amended_witness :
    ∃ mid t_a ta,
      (process_request env0 "Do a complex analysis on AI impact on healthcare"
          st0).2.ctx.conversation_history =
        st0.ctx.conversation_history ++
          ({ role := "user", content := "Do a complex analysis on AI impact on healthcare",
             agent := "user", timestamp := st0.time } ::
            (mid ++
              [{ role := "assistant",
                 content := (process_request env0
                   "Do a complex analysis on AI impact on healthcare" st0).1,
                 agent := "coordinator", timestamp := t_a }])) ∧
      (∀ x ∈ mid, x.role = "system") ∧
      countRole "user"
        (process_request env0 "Do a complex analysis on AI impact on healthcare"
          st0).2.ctx.conversation_history =
        countRole "user" st0.ctx.conversation_history + 1 ∧
      countRole "assistant"
        (process_request env0 "Do a complex analysis on AI impact on healthcare"
          st0).2.ctx.conversation_history =
        countRole "assistant" st0.ctx.conversation_history + 1 ∧
      (process_request env0 "Do a complex analysis on AI impact on healthcare"
        st0).2.ctx.task_history = st0.ctx.task_history ++ ta ∧
      ta.length =
        ((env0.plan "Do a complex analysis on AI impact on healthcare").map
          (fun c => specialistCount c + compositeCount c)).sum :=
  c3_request_bracketing_amended env0
    "Do a complex analysis on AI impact on healthcare" st0 (by decide)

end ResearchAgentRepo
